import Mathlib

/-!
Verification of the DORA quick-check metrics classifier
(`src/app/components/DoraQuickCheck.tsx`) and the report-export route
handler (`src/app/api/send-results/route.ts`).

Numbers are modelled as exact rationals (`ℚ`); JavaScript `null` as
`Option`.  `Math.round` is modelled as `⌊q + 1/2⌋`, which agrees with the
JavaScript function on all inputs.  Non-finite numbers (`NaN`, `±Infinity`)
never survive `clampNum`, so they are folded into the `RawField.invalid`
constructor of the raw-input model.
-/

set_option autoImplicit false

namespace Dora

/-- Tier enumeration, from `type DoraTier = "elite" | "high" | "medium" | "low" | "na"`. -/
inductive Tier where
  | elite
  | high
  | medium
  | low
  | na
deriving DecidableEq, Repr

/-- JavaScript `Number.MAX_SAFE_INTEGER`, the default upper clamp of `clampNum`. -/
def maxSafeInteger : ℚ := 2 ^ 53 - 1

/-- Finite branch of `clampNum`: `Math.min(Math.max(v, 0), Number.MAX_SAFE_INTEGER)`.
The non-finite branch (result 0) is handled by `stateOf` on `RawField.invalid`. -/
def clampNum (v : ℚ) : ℚ := min (max v 0) maxSafeInteger

/-- JavaScript `Math.round`: round half toward positive infinity. -/
def jsRound (q : ℚ) : ℤ := ⌊q + 1 / 2⌋

/-- Deployment-frequency classifier `freqTier` (thresholds 30 / 4 / 1 / >0 from `DORA_FREQ`). -/
def freqTier (perMonth : ℚ) : Tier :=
  if perMonth ≥ 30 then .elite
  else if perMonth ≥ 4 then .high
  else if perMonth ≥ 1 then .medium
  else if perMonth > 0 then .low
  else .na

/-- Change-failure-rate classifier `cfrTier`. -/
def cfrTier (cfr : Option ℚ) : Tier :=
  match cfr with
  | none => .na
  | some c =>
    if c ≤ 15 / 100 then .elite
    else if c ≤ 3 / 10 then .medium
    else .low

/-- Lead-time classifier `leadTier`. -/
def leadTier (days : Option ℚ) : Tier :=
  match days with
  | none => .na
  | some d =>
    if d ≤ 1 then .elite
    else if d ≤ 7 then .high
    else if d ≤ 30 then .medium
    else .low

/-- Mean-time-to-restore classifier `mttrTier` (medium threshold is `24 * 7` in the source). -/
def mttrTier (hours : Option ℚ) : Tier :=
  match hours with
  | none => .na
  | some h =>
    if h ≤ 1 then .elite
    else if h ≤ 24 then .high
    else if h ≤ 24 * 7 then .medium
    else .low

/-- Raw value of one numeric form field, before the `onChange` coercion:
`empty` models the empty string, `invalid` a non-numeric or non-finite entry
(whose `+v` is `NaN`/`±Infinity`), `val q` a finite numeric entry. -/
inductive RawField where
  | empty
  | invalid
  | val (q : ℚ)
deriving DecidableEq, Repr

/-- Component state produced by `onChange`: `""` stays `""` (here `none`),
anything else goes through `clampNum (+v)`, so non-finite input becomes the
number 0 and finite input is clamped to `[0, MAX_SAFE_INTEGER]`. -/
def stateOf : RawField → Option ℚ
  | .empty => none
  | .invalid => some 0
  | .val q => some (clampNum q)

/-- Raw values of the six form fields. -/
structure RawInputs where
  deploys : RawField
  team : RawField
  squads : RawField
  errors : RawField
  leadDays : RawField
  mttrHours : RawField
deriving DecidableEq, Repr

/-- Input set with all six fields left empty. -/
def allEmptyInputs : RawInputs :=
  ⟨.empty, .empty, .empty, .empty, .empty, .empty⟩

/-- Result of the `validNumbers` memo. -/
structure ValidNumbers where
  d : ℚ
  t : ℚ
  s : ℚ
  e : ℚ
  ld : Option ℚ
  mh : Option ℚ
deriving DecidableEq, Repr

/-- The `validNumbers` memo: required fields default to 0 (squads to 1) when the
state is not a number, optional fields to `null`; the returned squad count is
`s || 1`, i.e. 1 whenever the coerced value is 0. -/
def validNumbers (r : RawInputs) : ValidNumbers :=
  let d := (stateOf r.deploys).getD 0
  let t := (stateOf r.team).getD 0
  let s := (stateOf r.squads).getD 1
  let e := (stateOf r.errors).getD 0
  let ld := stateOf r.leadDays
  let mh := stateOf r.mttrHours
  { d := d, t := t, s := if s = 0 then 1 else s, e := e, ld := ld, mh := mh }

/-- Frequency progress bar: `Math.min(100, Math.round((d / 30) * 100))`. -/
def freqPctOf (d : ℚ) : ℤ := min 100 (jsRound (d / 30 * 100))

/-- Change-failure-rate progress bar:
`cfr === null ? 0 : Math.max(0, Math.round((1 - cfr / 0.3) * 100))`. -/
def cfrPctOf : Option ℚ → ℤ
  | none => 0
  | some c => max 0 (jsRound ((1 - c / (3 / 10)) * 100))

/-- Lead-time progress bar:
`ld == null ? 0 : Math.max(0, Math.min(100, Math.round((1 - (ld - 1) / 29) * 100)))`. -/
def ltPctOf : Option ℚ → ℤ
  | none => 0
  | some ld => max 0 (min 100 (jsRound ((1 - (ld - 1) / 29) * 100)))

/-- MTTR progress bar:
`mh == null ? 0 : Math.max(0, Math.min(100, Math.round((1 - (mh - 1) / (168 - 1)) * 100)))`. -/
def mttrPctOf : Option ℚ → ℤ
  | none => 0
  | some mh => max 0 (min 100 (jsRound ((1 - (mh - 1) / (168 - 1)) * 100)))

/-- Result of the `metrics` memo. -/
structure Metrics where
  perSquad : ℚ
  perEng : ℚ
  cfr : Option ℚ
  freq : Tier
  cfrT : Tier
  ltT : Tier
  mttrT : Tier
  freqPct : ℤ
  cfrPct : ℤ
  ltPct : ℤ
  mttrPct : ℤ
deriving DecidableEq, Repr

/-- The `metrics` memo, computed from `validNumbers`. -/
def metrics (r : RawInputs) : Metrics :=
  let v := validNumbers r
  let perSquad := v.d / v.s
  let perEng := if v.t = 0 then 0 else v.d / v.t
  let cfr : Option ℚ := if v.d > 0 then some (min 1 (v.e / v.d)) else none
  { perSquad := perSquad
    perEng := perEng
    cfr := cfr
    freq := freqTier v.d
    cfrT := cfrTier cfr
    ltT := leadTier v.ld
    mttrT := mttrTier v.mh
    freqPct := freqPctOf v.d
    cfrPct := cfrPctOf cfr
    ltPct := ltPctOf v.ld
    mttrPct := mttrPctOf v.mh }

/-! Spec-side formulas, written from the specification text, to be compared
with the code-side definitions above. -/

/-- Spec formula `perSquad = deploysPerMonth / max(squadCount, 1)`. -/
def specPerSquad (d s : ℚ) : ℚ := d / max s 1

/-- Spec formula for the frequency bar: `value/30*100` capped at 100. -/
def specFreqPct (v : ℚ) : ℤ := min 100 (jsRound (v / 30 * 100))

/-- Spec formula for the change-failure-rate bar: `(1 - cfr/0.30)*100` floored
at 0, and 0 when null. -/
def specCfrPct : Option ℚ → ℤ
  | none => 0
  | some c => max 0 (jsRound ((1 - c / (30 / 100)) * 100))

/-- Spec formula for the lead-time bar: `(1 - (days-1)/29)*100` clamped to
`[0,100]`, and 0 when null. -/
def specLtPct : Option ℚ → ℤ
  | none => 0
  | some d => max 0 (min 100 (jsRound ((1 - (d - 1) / 29) * 100)))

/-- Spec formula for the MTTR bar: `(1 - (hours-1)/167)*100` clamped to
`[0,100]`, and 0 when null. -/
def specMttrPct : Option ℚ → ℤ
  | none => 0
  | some h => max 0 (min 100 (jsRound ((1 - (h - 1) / 167) * 100)))

/-! Model of the report-export route handler
(`src/app/api/send-results/route.ts`). JSON values reaching the handler can
have any shape, so the request fields are modelled as untyped `JsonVal`s.
String-to-number coercion is modelled as `NaN` (no claim exercises numeric
strings), and the decimal rendering of a non-integer number is approximated;
neither affects any statement proved below. -/

/-- Untyped JSON value as seen by the route handler. -/
inductive JsonVal where
  | null
  | undef
  | num (q : ℚ)
  | str (s : String)
deriving DecidableEq, Repr

/-- JavaScript truthiness of a `JsonVal`: `null`, `undefined`, `0` and `""`
are falsy. -/
def jsTruthy : JsonVal → Bool
  | .null => false
  | .undef => false
  | .num q => decide (q ≠ 0)
  | .str s => decide (s ≠ "")

/-- Numeric coercion: `null → 0`, `undefined → NaN` (here `none`), numbers
unchanged; string coercion is modelled as `NaN`. -/
def jsToNumber : JsonVal → Option ℚ
  | .null => some 0
  | .undef => none
  | .num q => some q
  | .str _ => none

/-- Template-literal rendering of a `JsonVal` (integer numbers render exactly;
other numbers are approximated by a fraction notation). -/
def jsValToString : JsonVal → String
  | .null => "null"
  | .undef => "undefined"
  | .str s => s
  | .num q => if q.den = 1 then toString q.num else toString q.num ++ "/" ++ toString q.den

/-- Digit rendering of `jsRound (q * 10^n)` with `n` forced decimal places,
the numeric core of `Number.prototype.toFixed`. -/
def ratToFixed (n : ℕ) (q : ℚ) : String :=
  let m := jsRound (q * (10 : ℚ) ^ n)
  let sign := if m < 0 then "-" else ""
  let a := m.natAbs
  let fs := toString (a % 10 ^ n)
  sign ++ toString (a / 10 ^ n) ++ "." ++ String.mk (List.replicate (n - fs.length) '0') ++ fs

/-- Method call `v.toFixed(n)`: succeeds only when `v` is a number, raises a
`TypeError` otherwise (in particular on a missing field, i.e. `undefined`). -/
def jsToFixed (n : ℕ) : JsonVal → Except String String
  | .num q => .ok (ratToFixed n q)
  | _ => .error "TypeError: toFixed is not a function"

/-- Method call `v.toUpperCase()`: succeeds only when `v` is a string, raises
a `TypeError` otherwise. -/
def jsToUpper : JsonVal → Except String String
  | .str s => .ok s.toUpper
  | _ => .error "TypeError: toUpperCase is not a function"

/-- The `metrics` object of the request body. -/
structure ReqMetrics where
  freqT : JsonVal
  cfrT : JsonVal
  ltT : JsonVal
  mttrT : JsonVal
  perSquad : JsonVal
  perEng : JsonVal
  cfr : JsonVal
deriving DecidableEq, Repr

/-- The `results` object of the request body. -/
structure ReqResults where
  deploys : JsonVal
  team : JsonVal
  squads : JsonVal
  errors : JsonVal
  leadDays : JsonVal
  mttrHours : JsonVal
deriving DecidableEq, Repr

/-- The destructured request body `{ email, results, metrics }`. -/
structure ReqBody where
  email : JsonVal
  results : ReqResults
  metrics : ReqMetrics
deriving DecidableEq, Repr

/-- Outcome of `await request.json()`: either a parse error (thrown inside the
`try` block) or a body of arbitrary JSON shape. -/
inductive ParsedRequest where
  | malformed (msg : String)
  | body (b : ReqBody)
deriving DecidableEq, Repr

/-- Rendering of `metrics.cfr ? Math.round(metrics.cfr * 100) + '%' : 'N/A'`,
used verbatim in both the text and the HTML template. -/
def cfrDisplay (v : JsonVal) : String :=
  if jsTruthy v then
    match jsToNumber v with
    | some q => toString (jsRound (q * 100)) ++ "%"
    | none => "NaN%"
  else "N/A"

/-- Rendering of `v || 'N/A'` inside a template literal, used for
`results.leadDays` and `results.mttrHours` in both templates. -/
def orNaDisplay (v : JsonVal) : String :=
  if jsTruthy v then jsValToString v else "N/A"

/-- CFR line of the plain-text report. -/
def textCfrLine (b : ReqBody) : String := "CFR: " ++ cfrDisplay b.metrics.cfr

/-- CFR paragraph of the HTML report. -/
def htmlCfrLine (b : ReqBody) : String :=
  "<p>CFR: <strong>" ++ cfrDisplay b.metrics.cfr ++ "</strong></p>"

/-- Lead-time line of the plain-text report. -/
def textLeadLine (b : ReqBody) : String :=
  "Lead time (days): " ++ orNaDisplay b.results.leadDays

/-- Lead-time paragraph of the HTML report. -/
def htmlLeadLine (b : ReqBody) : String :=
  "<p>Lead time (days): <strong>" ++ orNaDisplay b.results.leadDays ++ "</strong></p>"

/-- MTTR line of the plain-text report. -/
def textMttrLine (b : ReqBody) : String := "MTTR (hours): " ++ orNaDisplay b.results.mttrHours

/-- MTTR paragraph of the HTML report. -/
def htmlMttrLine (b : ReqBody) : String :=
  "<p>MTTR (hours): <strong>" ++ orNaDisplay b.results.mttrHours ++ "</strong></p>"

/-- Construction of `resultsText`: the interpolations may throw
(`metrics.perSquad.toFixed(1)`, `metrics.perEng.toFixed(2)`), hence the
`Except`. The timestamp `new Date().toLocaleString()` is the parameter `now`. -/
def resultsTextOf (now : String) (b : ReqBody) : Except String String := do
  let perSquadStr ← jsToFixed 1 b.metrics.perSquad
  let perEngStr ← jsToFixed 2 b.metrics.perEng
  pure (String.intercalate "\n"
    [ "DORA Metrics Report", "==================", ""
    , "Email: " ++ jsValToString b.email
    , "Generated: " ++ now, ""
    , "DEPLOYMENT FREQUENCY"
    , "Current Tier: " ++ jsValToString b.metrics.freqT
    , "Deployments/month: " ++ jsValToString b.results.deploys
    , "Per squad/month: " ++ perSquadStr
    , "Per engineer/month: " ++ perEngStr, ""
    , "CHANGE FAILURE RATE"
    , "Current Tier: " ++ jsValToString b.metrics.cfrT
    , "Production errors/month: " ++ jsValToString b.results.errors
    , textCfrLine b, ""
    , "LEAD TIME FOR CHANGES"
    , "Current Tier: " ++ jsValToString b.metrics.ltT
    , textLeadLine b, ""
    , "MEAN TIME TO RESTORE (MTTR)"
    , "Current Tier: " ++ jsValToString b.metrics.mttrT
    , textMttrLine b, ""
    , "TEAM INFORMATION"
    , "Team size: " ++ jsValToString b.results.team
    , "Number of squads: " ++ jsValToString b.results.squads ])

/-- Construction of `resultsHtml`: besides the `toFixed` calls it invokes
`toUpperCase()` on the four tier fields, which throws when a tier is missing
or not a string. Only the data-bearing lines are materialised. -/
def resultsHtmlOf (now : String) (b : ReqBody) : Except String String := do
  let perSquadStr ← jsToFixed 1 b.metrics.perSquad
  let perEngStr ← jsToFixed 2 b.metrics.perEng
  let freqUp ← jsToUpper b.metrics.freqT
  let cfrUp ← jsToUpper b.metrics.cfrT
  let ltUp ← jsToUpper b.metrics.ltT
  let mttrUp ← jsToUpper b.metrics.mttrT
  pure (String.intercalate "\n"
    [ "<h1>DORA Metrics Report</h1>"
    , "<p><strong>Email:</strong> " ++ jsValToString b.email ++ "</p>"
    , "<p><strong>Generated:</strong> " ++ now ++ "</p>"
    , "<h3>Deployment Frequency</h3>"
    , "<span class=\"tier tier-" ++ jsValToString b.metrics.freqT ++ "\">" ++ freqUp ++ "</span>"
    , "<p>Deployments/month: <strong>" ++ jsValToString b.results.deploys ++ "</strong></p>"
    , "<p>Per squad/month: <strong>" ++ perSquadStr ++ "</strong></p>"
    , "<p>Per engineer/month: <strong>" ++ perEngStr ++ "</strong></p>"
    , "<h3>Change Failure Rate</h3>"
    , "<span class=\"tier tier-" ++ jsValToString b.metrics.cfrT ++ "\">" ++ cfrUp ++ "</span>"
    , "<p>Production errors/month: <strong>" ++ jsValToString b.results.errors ++ "</strong></p>"
    , htmlCfrLine b
    , "<h3>Lead Time for Changes</h3>"
    , "<span class=\"tier tier-" ++ jsValToString b.metrics.ltT ++ "\">" ++ ltUp ++ "</span>"
    , htmlLeadLine b
    , "<h3>Mean Time to Restore (MTTR)</h3>"
    , "<span class=\"tier tier-" ++ jsValToString b.metrics.mttrT ++ "\">" ++ mttrUp ++ "</span>"
    , htmlMttrLine b
    , "<h3>Team Information</h3>"
    , "<p>Team size: <strong>" ++ jsValToString b.results.team ++ "</strong></p>"
    , "<p>Number of squads: <strong>" ++ jsValToString b.results.squads ++ "</strong></p>" ])

/-- Request body whose `metrics.perSquad` field is missing — a malformed
metrics object on which `toFixed` throws. -/
def badBody : ReqBody :=
  ⟨.str "a@b.c", ⟨.num 1, .num 1, .num 1, .num 1, .num 1, .num 1⟩,
   ⟨.str "high", .str "medium", .str "high", .str "high", .undef, .num 1, .num 0⟩⟩

/-- Request body whose cfr, leadDays and mttrHours all hold the number 0. -/
def zeroBody : ReqBody :=
  ⟨.str "a@b.c", ⟨.num 5, .num 3, .num 1, .num 0, .num 0, .num 0⟩,
   ⟨.str "high", .str "elite", .str "elite", .str "elite", .num 5, .num 1, .num 0⟩⟩

/-- HTTP response produced by the handler. -/
structure Response where
  status : ℕ
  message : String
deriving DecidableEq, Repr

/-- Success response `NextResponse.json({ success: true, ... })`. -/
def successResponse : Response := ⟨200, "Results captured and email queued"⟩

/-- Failure response `NextResponse.json({ error: ... }, { status: 500 })`
returned by the `catch` block. -/
def errorResponse : Response := ⟨500, "Failed to send email"⟩

/-- Body of the `try` block: parse the request, build both renderings, queue
the email (a log, which cannot throw) and return the success response. Any
thrown error surfaces as `Except.error`. -/
def handlerBody (now : String) : ParsedRequest → Except String Response
  | .malformed msg => .error msg
  | .body b =>
    match resultsTextOf now b with
    | .error e => .error e
    | .ok _ =>
      match resultsHtmlOf now b with
      | .error e => .error e
      | .ok _ => .ok successResponse

/-- The exported `POST` handler: the `try`/`catch` wrapper around
`handlerBody`, converting every thrown error into `errorResponse`. -/
def POST (now : String) (r : ParsedRequest) : Response :=
  match handlerBody now r with
  | .ok resp => resp
  | .error _ => errorResponse

/-! Helper lemmas shared by the claim theorems. -/

/-- Lower bound of `Math.round`. -/
theorem jsRound_nonneg {q : ℚ} (h : 0 ≤ q) : 0 ≤ jsRound q :=
  Int.le_floor.mpr (by push_cast; linarith)

/-- Upper bound of `Math.round` by an integer bound on its argument. -/
theorem jsRound_le {q : ℚ} {z : ℤ} (h : q ≤ z) : jsRound q ≤ z := by
  have hlt : jsRound q < z + 1 := by
    rw [jsRound, Int.floor_lt]
    push_cast
    linarith
  omega

/-- Monotonicity of `Math.round`. -/
theorem jsRound_mono {a b : ℚ} (h : a ≤ b) : jsRound a ≤ jsRound b :=
  Int.floor_mono (by linarith)

/-- Output of `clampNum` is non-negative. -/
theorem clampNum_nonneg (q : ℚ) : 0 ≤ clampNum q :=
  le_min (le_max_right q 0) (by norm_num [maxSafeInteger])

/-- Every number held in a coerced field state is non-negative. -/
theorem stateOf_nonneg (x : RawField) {q : ℚ} (h : stateOf x = some q) : 0 ≤ q := by
  cases x with
  | empty => simp [stateOf] at h
  | invalid =>
    simp only [stateOf, Option.some.injEq] at h
    exact le_of_eq h
  | val v =>
    simp only [stateOf, Option.some.injEq] at h
    exact h ▸ clampNum_nonneg v

/-- The coerced deployment count is non-negative. -/
theorem validNumbers_d_nonneg (r : RawInputs) : 0 ≤ (validNumbers r).d := by
  simp only [validNumbers]
  cases hx : stateOf r.deploys with
  | none => simp
  | some q => simpa using stateOf_nonneg r.deploys hx

/-- The coerced error count is non-negative. -/
theorem validNumbers_e_nonneg (r : RawInputs) : 0 ≤ (validNumbers r).e := by
  simp only [validNumbers]
  cases hx : stateOf r.errors with
  | none => simp
  | some q => simpa using stateOf_nonneg r.errors hx

/-- The derived change-failure rate is either null or a ratio in [0, 1]. -/
theorem metrics_cfr_range (r : RawInputs) :
    (metrics r).cfr = none ∨ ∃ c : ℚ, (metrics r).cfr = some c ∧ 0 ≤ c ∧ c ≤ 1 := by
  simp only [metrics]
  by_cases hd : (validNumbers r).d > 0
  · refine Or.inr ⟨min 1 ((validNumbers r).e / (validNumbers r).d), ?_, ?_, min_le_left 1 _⟩
    · simp [hd]
    · exact le_min (by norm_num)
        (div_nonneg (validNumbers_e_nonneg r) (le_of_lt hd))
  · exact Or.inl (by simp [hd])

/-- C1: for the input set deploys=12, team=20, squads=4, errors=2, leadDays=3,
mttrHours=8, the derived metrics are perSquad = 3, perEngineer = 0.6 and
changeFailureRate = 2/12 classified medium, and frequency is high, lead time
high, MTTR high. -/
theorem c1_end_to_end :
    (metrics ⟨.val 12, .val 20, .val 4, .val 2, .val 3, .val 8⟩).perSquad = 3 ∧
    (metrics ⟨.val 12, .val 20, .val 4, .val 2, .val 3, .val 8⟩).perEng = 6 / 10 ∧
    (metrics ⟨.val 12, .val 20, .val 4, .val 2, .val 3, .val 8⟩).cfr = some (2 / 12) ∧
    (metrics ⟨.val 12, .val 20, .val 4, .val 2, .val 3, .val 8⟩).cfrT = Tier.medium ∧
    (metrics ⟨.val 12, .val 20, .val 4, .val 2, .val 3, .val 8⟩).freq = Tier.high ∧
    (metrics ⟨.val 12, .val 20, .val 4, .val 2, .val 3, .val 8⟩).ltT = Tier.high ∧
    (metrics ⟨.val 12, .val 20, .val 4, .val 2, .val 3, .val 8⟩).mttrT = Tier.high := by
  norm_num [metrics, validNumbers, stateOf, clampNum, maxSafeInteger,
    freqTier, cfrTier, leadTier, mttrTier]

/-- C2: `cfrTier` maps null to n/a, any cfr ≤ 0.15 to elite, any cfr in
(0.15, 0.30] to medium, any cfr > 0.30 to low, and never returns high; the
boundary cases 0.15 ↦ elite, 0.151 ↦ medium, 0.31 ↦ low. -/
theorem c2_cfrTier_spec :
    cfrTier none = Tier.na ∧
    (∀ c : ℚ, c ≤ 15 / 100 → cfrTier (some c) = Tier.elite) ∧
    (∀ c : ℚ, 15 / 100 < c → c ≤ 30 / 100 → cfrTier (some c) = Tier.medium) ∧
    (∀ c : ℚ, 30 / 100 < c → cfrTier (some c) = Tier.low) ∧
    (∀ v : Option ℚ, cfrTier v ≠ Tier.high) ∧
    cfrTier (some (15 / 100)) = Tier.elite ∧
    cfrTier (some (151 / 1000)) = Tier.medium ∧
    cfrTier (some (31 / 100)) = Tier.low := by
  refine ⟨rfl, fun c h => ?_, fun c h1 h2 => ?_, fun c h => ?_, fun v => ?_,
    by norm_num [cfrTier], by norm_num [cfrTier], by norm_num [cfrTier]⟩
  · simp only [cfrTier]
    rw [if_pos h]
  · simp only [cfrTier]
    split_ifs <;> first | rfl | linarith
  · simp only [cfrTier]
    split_ifs <;> first | rfl | linarith
  · cases v with
    | none => simp [cfrTier]
    | some c =>
      simp only [cfrTier]
      split_ifs <;> decide

/-- C2 witness: the universally quantified clauses of `c2_cfrTier_spec`
instantiated at concrete rates. -/
theorem c2_cfrTier_spec_witness :
    cfrTier (some (1 / 10)) = Tier.elite ∧
    cfrTier (some (2 / 10)) = Tier.medium ∧
    cfrTier (some (4 / 10)) = Tier.low :=
  ⟨c2_cfrTier_spec.2.1 (1 / 10) (by norm_num),
   c2_cfrTier_spec.2.2.1 (2 / 10) (by norm_num) (by norm_num),
   c2_cfrTier_spec.2.2.2.1 (4 / 10) (by norm_num)⟩

/-- C3: `freqTier` maps perMonth ≥ 30 to elite, perMonth in [4, 30) to high,
perMonth in [1, 4) to medium, perMonth in (0, 1) to low and perMonth ≤ 0 to
n/a; in particular 0 ↦ n/a, 29.9 ↦ high, 30 ↦ elite. -/
theorem c3_freqTier_spec :
    (∀ v : ℚ, 30 ≤ v → freqTier v = Tier.elite) ∧
    (∀ v : ℚ, 4 ≤ v → v < 30 → freqTier v = Tier.high) ∧
    (∀ v : ℚ, 1 ≤ v → v < 4 → freqTier v = Tier.medium) ∧
    (∀ v : ℚ, 0 < v → v < 1 → freqTier v = Tier.low) ∧
    (∀ v : ℚ, v ≤ 0 → freqTier v = Tier.na) ∧
    freqTier 0 = Tier.na ∧ freqTier (299 / 10) = Tier.high ∧ freqTier 30 = Tier.elite := by
  refine ⟨fun v h => ?_, fun v h1 h2 => ?_, fun v h1 h2 => ?_, fun v h1 h2 => ?_,
    fun v h => ?_, by norm_num [freqTier], by norm_num [freqTier], by norm_num [freqTier]⟩ <;>
    · simp only [freqTier, ge_iff_le, gt_iff_lt]
      split_ifs <;> first | rfl | linarith

/-- C3 witness: the universally quantified clauses of `c3_freqTier_spec`
instantiated at concrete frequencies. -/
theorem c3_freqTier_spec_witness :
    freqTier 45 = Tier.elite ∧ freqTier 12 = Tier.high ∧ freqTier 2 = Tier.medium ∧
    freqTier (1 / 2) = Tier.low ∧ freqTier (-3) = Tier.na :=
  ⟨c3_freqTier_spec.1 45 (by norm_num),
   c3_freqTier_spec.2.1 12 (by norm_num) (by norm_num),
   c3_freqTier_spec.2.2.1 2 (by norm_num) (by norm_num),
   c3_freqTier_spec.2.2.2.1 (1 / 2) (by norm_num) (by norm_num),
   c3_freqTier_spec.2.2.2.2.1 (-3) (by norm_num)⟩

/-- Code and spec agree on the change-failure-rate bar formula
(`0.3` versus `0.30`). -/
theorem cfrPctOf_eq_spec (c : Option ℚ) : cfrPctOf c = specCfrPct c := by
  cases c with
  | none => rfl
  | some q =>
    simp only [cfrPctOf, specCfrPct]
    norm_num

/-- Code and spec agree on the MTTR bar formula (`168 - 1` versus `167`). -/
theorem mttrPctOf_eq_spec (x : Option ℚ) : mttrPctOf x = specMttrPct x := by
  cases x with
  | none => rfl
  | some h =>
    simp only [mttrPctOf, specMttrPct]
    norm_num

/-- Frequency bar is non-negative for a non-negative deploy count. -/
theorem freqPctOf_nonneg {d : ℚ} (hd : 0 ≤ d) : 0 ≤ freqPctOf d :=
  le_min (by norm_num)
    (jsRound_nonneg (mul_nonneg (div_nonneg hd (by norm_num)) (by norm_num)))

/-- Frequency bar is capped at 100. -/
theorem freqPctOf_le_100 (d : ℚ) : freqPctOf d ≤ 100 := min_le_left 100 _

/-- Change-failure-rate bar is floored at 0. -/
theorem cfrPctOf_nonneg (c : Option ℚ) : 0 ≤ cfrPctOf c := by
  cases c with
  | none => exact le_refl 0
  | some q => exact le_max_left 0 _

/-- Change-failure-rate bar stays below 100 for a non-negative rate. -/
theorem cfrPctOf_le_100 {c : Option ℚ} (h : ∀ q ∈ c, 0 ≤ q) : cfrPctOf c ≤ 100 := by
  cases c with
  | none => norm_num [cfrPctOf]
  | some q =>
    have hq : 0 ≤ q := h q rfl
    exact max_le (by norm_num) (jsRound_le (by push_cast; linarith))

/-- Lead-time bar is clamped below by 0. -/
theorem ltPctOf_nonneg (x : Option ℚ) : 0 ≤ ltPctOf x := by
  cases x with
  | none => exact le_refl 0
  | some d => exact le_max_left 0 _

/-- Lead-time bar is clamped above by 100. -/
theorem ltPctOf_le_100 (x : Option ℚ) : ltPctOf x ≤ 100 := by
  cases x with
  | none => norm_num [ltPctOf]
  | some d => exact max_le (by norm_num) (min_le_left 100 _)

/-- MTTR bar is clamped below by 0. -/
theorem mttrPctOf_nonneg (x : Option ℚ) : 0 ≤ mttrPctOf x := by
  cases x with
  | none => exact le_refl 0
  | some hq => exact le_max_left 0 _

/-- MTTR bar is clamped above by 100. -/
theorem mttrPctOf_le_100 (x : Option ℚ) : mttrPctOf x ≤ 100 := by
  cases x with
  | none => norm_num [mttrPctOf]
  | some hq => exact max_le (by norm_num) (min_le_left 100 _)

/-- C4: for every coerced input set, the four progress percentages are
integers in [0, 100] and are computed by the spec formulas (frequency
`value/30*100` capped at 100; change-failure-rate `(1 - cfr/0.30)*100`
floored at 0, 0 when null; lead-time `(1 - (days-1)/29)*100` clamped to
[0, 100], 0 when null; MTTR `(1 - (hours-1)/167)*100` clamped to [0, 100],
0 when null). -/
theorem c4_progressPercent (r : RawInputs) :
    ((metrics r).freqPct = specFreqPct (validNumbers r).d ∧
     (metrics r).cfrPct = specCfrPct (metrics r).cfr ∧
     (metrics r).ltPct = specLtPct (validNumbers r).ld ∧
     (metrics r).mttrPct = specMttrPct (validNumbers r).mh) ∧
    (0 ≤ (metrics r).freqPct ∧ (metrics r).freqPct ≤ 100) ∧
    (0 ≤ (metrics r).cfrPct ∧ (metrics r).cfrPct ≤ 100) ∧
    (0 ≤ (metrics r).ltPct ∧ (metrics r).ltPct ≤ 100) ∧
    (0 ≤ (metrics r).mttrPct ∧ (metrics r).mttrPct ≤ 100) := by
  have hfreq : (metrics r).freqPct = freqPctOf (validNumbers r).d := rfl
  have hcfrp : (metrics r).cfrPct = cfrPctOf (metrics r).cfr := rfl
  have hltp : (metrics r).ltPct = ltPctOf (validNumbers r).ld := rfl
  have hmttrp : (metrics r).mttrPct = mttrPctOf (validNumbers r).mh := rfl
  have hq : ∀ q ∈ (metrics r).cfr, 0 ≤ q := by
    rcases metrics_cfr_range r with hnone | ⟨c, hc, hc0, _⟩
    · simp [hnone]
    · intro q hqmem
      rw [hc] at hqmem
      cases hqmem
      exact hc0
  refine ⟨⟨hfreq, hcfrp.trans (cfrPctOf_eq_spec _), hltp,
      hmttrp.trans (mttrPctOf_eq_spec _)⟩, ?_, ?_, ?_, ?_⟩
  · exact ⟨hfreq ▸ freqPctOf_nonneg (validNumbers_d_nonneg r), hfreq ▸ freqPctOf_le_100 _⟩
  · exact ⟨hcfrp ▸ cfrPctOf_nonneg _, hcfrp ▸ cfrPctOf_le_100 hq⟩
  · exact ⟨hltp ▸ ltPctOf_nonneg _, hltp ▸ ltPctOf_le_100 _⟩
  · exact ⟨hmttrp ▸ mttrPctOf_nonneg _, hmttrp ▸ mttrPctOf_le_100 _⟩

/-- C4 witness: the bound clauses at the all-empty input set. -/
theorem c4_progressPercent_witness :
    ((metrics allEmptyInputs).freqPct = specFreqPct (validNumbers allEmptyInputs).d ∧
     0 ≤ (metrics allEmptyInputs).freqPct ∧ (metrics allEmptyInputs).freqPct ≤ 100) ∧
    (0 ≤ (metrics allEmptyInputs).cfrPct ∧ (metrics allEmptyInputs).cfrPct ≤ 100) :=
  ⟨⟨(c4_progressPercent allEmptyInputs).1.1, (c4_progressPercent allEmptyInputs).2.1⟩,
   (c4_progressPercent allEmptyInputs).2.2.1⟩

/-- C5: each progress bar is monotone in its numeric argument — non-decreasing
for frequency, non-increasing for change-failure-rate, lead-time and MTTR. -/
theorem c5_progress_monotone (x y : ℚ) (h : x ≤ y) :
    freqPctOf x ≤ freqPctOf y ∧
    cfrPctOf (some y) ≤ cfrPctOf (some x) ∧
    ltPctOf (some y) ≤ ltPctOf (some x) ∧
    mttrPctOf (some y) ≤ mttrPctOf (some x) := by
  simp only [freqPctOf, cfrPctOf, ltPctOf, mttrPctOf]
  refine ⟨min_le_min le_rfl (jsRound_mono (by linarith)),
    max_le_max le_rfl (jsRound_mono (by linarith)),
    max_le_max le_rfl (min_le_min le_rfl (jsRound_mono (by linarith))),
    max_le_max le_rfl (min_le_min le_rfl (jsRound_mono (by linarith)))⟩

/-- C5 witness: monotonicity instantiated at 1 ≤ 2. -/
theorem c5_progress_monotone_witness :
    freqPctOf 1 ≤ freqPctOf 2 ∧
    cfrPctOf (some 2) ≤ cfrPctOf (some 1) ∧
    ltPctOf (some 2) ≤ ltPctOf (some 1) ∧
    mttrPctOf (some 2) ≤ mttrPctOf (some 1) :=
  c5_progress_monotone 1 2 (by norm_num)

/-- C6 counterexample: for squadCount = 0.5 and one deploy the code divides by
0.5 (the `s || 1` divisor), giving perSquad = 2, while the claimed formula
`deploysPerMonth / max(squadCount, 1)` gives 1. -/
theorem c6_counterexample :
    (metrics ⟨.val 1, .val 0, .val (1 / 2), .val 0, .empty, .empty⟩).perSquad = 2 ∧
    specPerSquad 1 (1 / 2) = 1 ∧
    (metrics ⟨.val 1, .val 0, .val (1 / 2), .val 0, .empty, .empty⟩).perSquad ≠
      specPerSquad 1 (1 / 2) := by
  refine ⟨?_, ?_, ?_⟩ <;>
    norm_num [metrics, validNumbers, stateOf, clampNum, maxSafeInteger, specPerSquad]

/-- C6 amended: perSquad is the deploy count divided by the coerced squad
count when that is nonzero and by 1 otherwise; the divisor is never zero, for
every raw squad entry ≤ 0 the divisor is 1, and the claimed
`max(squadCount, 1)` form does hold for every squad entry ≥ 1. -/
theorem c6_perSquad_amended (r : RawInputs) (q : ℚ) :
    ((metrics r).perSquad = (validNumbers r).d / (validNumbers r).s ∧
      (validNumbers r).s ≠ 0) ∧
    (q ≤ 0 → (validNumbers { r with squads := RawField.val q }).s = 1) ∧
    (1 ≤ q → q ≤ maxSafeInteger →
      (metrics { r with squads := RawField.val q }).perSquad =
        specPerSquad (validNumbers r).d q) := by
  refine ⟨⟨rfl, ?_⟩, fun hq => ?_, fun h1 h2 => ?_⟩
  · simp only [validNumbers]
    split_ifs with h
    · norm_num
    · exact h
  · have hcl : clampNum q = 0 := by
      unfold clampNum
      rw [max_eq_right hq]
      exact min_eq_left (by norm_num [maxSafeInteger])
    simp [validNumbers, stateOf, hcl]
  · have hcl : clampNum q = q := by
      unfold clampNum
      rw [max_eq_left (le_trans zero_le_one h1), min_eq_left h2]
    have hq0 : ¬q = 0 := by linarith
    simp [metrics, validNumbers, stateOf, hcl, hq0, specPerSquad, max_eq_left h1]

/-- C6 witness: the amended clauses at concrete squad entries −2 and 3. -/
theorem c6_perSquad_amended_witness :
    (validNumbers { allEmptyInputs with squads := RawField.val (-2) }).s = 1 ∧
    (metrics { allEmptyInputs with squads := RawField.val 3 }).perSquad =
      specPerSquad (validNumbers allEmptyInputs).d 3 :=
  ⟨(c6_perSquad_amended allEmptyInputs (-2)).2.1 (by norm_num),
   (c6_perSquad_amended allEmptyInputs 3).2.2 (by norm_num) (by norm_num [maxSafeInteger])⟩

/-- C7 counterexample: a missing squad count coerces to 1 (not 0) and a
non-numeric lead-time entry coerces to the number 0 (not null), refuting the
claimed coercion table at the input with squads empty and leadDays invalid. -/
theorem c7_counterexample :
    (validNumbers ⟨.empty, .empty, .empty, .empty, .invalid, .empty⟩).s = 1 ∧
    (validNumbers ⟨.empty, .empty, .empty, .empty, .invalid, .empty⟩).ld = some 0 ∧
    ¬((validNumbers ⟨.empty, .empty, .empty, .empty, .invalid, .empty⟩).s = 0 ∧
      (validNumbers ⟨.empty, .empty, .empty, .empty, .invalid, .empty⟩).ld = none) := by
  refine ⟨?_, ?_, ?_⟩ <;> norm_num [validNumbers, stateOf]

/-- C7 amended: missing or non-numeric deploys, team and errors coerce to 0;
squads coerces to 1; a missing optional field coerces to null but a
non-numeric optional entry coerces to the number 0; no input is ever
rejected (the pipeline is a total function by construction). -/
theorem c7_coercion_amended (r : RawInputs) :
    ((r.deploys = RawField.empty ∨ r.deploys = RawField.invalid) →
      (validNumbers r).d = 0) ∧
    ((r.team = RawField.empty ∨ r.team = RawField.invalid) → (validNumbers r).t = 0) ∧
    ((r.errors = RawField.empty ∨ r.errors = RawField.invalid) → (validNumbers r).e = 0) ∧
    ((r.squads = RawField.empty ∨ r.squads = RawField.invalid) → (validNumbers r).s = 1) ∧
    (r.leadDays = RawField.empty → (validNumbers r).ld = none) ∧
    (r.leadDays = RawField.invalid → (validNumbers r).ld = some 0) ∧
    (r.mttrHours = RawField.empty → (validNumbers r).mh = none) ∧
    (r.mttrHours = RawField.invalid → (validNumbers r).mh = some 0) := by
  refine ⟨fun h => ?_, fun h => ?_, fun h => ?_, fun h => ?_,
    fun h => ?_, fun h => ?_, fun h => ?_, fun h => ?_⟩ <;>
    first
      | (rcases h with h | h <;> simp [validNumbers, stateOf, h])
      | simp [validNumbers, stateOf, h]

/-- C7 witness: the amended coercion table at a concrete input with deploys
and squads missing, team and errors non-numeric, leadDays non-numeric and
mttrHours missing. -/
theorem c7_coercion_amended_witness :
    (validNumbers ⟨.empty, .invalid, .empty, .invalid, .invalid, .empty⟩).d = 0 ∧
    (validNumbers ⟨.empty, .invalid, .empty, .invalid, .invalid, .empty⟩).t = 0 ∧
    (validNumbers ⟨.empty, .invalid, .empty, .invalid, .invalid, .empty⟩).e = 0 ∧
    (validNumbers ⟨.empty, .invalid, .empty, .invalid, .invalid, .empty⟩).s = 1 ∧
    (validNumbers ⟨.empty, .invalid, .empty, .invalid, .invalid, .empty⟩).ld = some 0 ∧
    (validNumbers ⟨.empty, .invalid, .empty, .invalid, .invalid, .empty⟩).mh = none :=
  ⟨(c7_coercion_amended _).1 (Or.inl rfl),
   (c7_coercion_amended _).2.1 (Or.inr rfl),
   (c7_coercion_amended _).2.2.1 (Or.inr rfl),
   (c7_coercion_amended _).2.2.2.1 (Or.inl rfl),
   (c7_coercion_amended _).2.2.2.2.2.1 rfl,
   (c7_coercion_amended _).2.2.2.2.2.2.1 rfl⟩

/-- C8: `leadTier` maps null to n/a, days ≤ 1 to elite, days in (1, 7] to
high, days in (7, 30] to medium and days > 30 to low; in particular 1 ↦ elite,
7 ↦ high, 30 ↦ medium, 31 ↦ low. -/
theorem c8_leadTier_spec :
    leadTier none = Tier.na ∧
    (∀ d : ℚ, d ≤ 1 → leadTier (some d) = Tier.elite) ∧
    (∀ d : ℚ, 1 < d → d ≤ 7 → leadTier (some d) = Tier.high) ∧
    (∀ d : ℚ, 7 < d → d ≤ 30 → leadTier (some d) = Tier.medium) ∧
    (∀ d : ℚ, 30 < d → leadTier (some d) = Tier.low) ∧
    leadTier (some 1) = Tier.elite ∧ leadTier (some 7) = Tier.high ∧
    leadTier (some 30) = Tier.medium ∧ leadTier (some 31) = Tier.low := by
  refine ⟨rfl, fun d h => ?_, fun d h1 h2 => ?_, fun d h1 h2 => ?_, fun d h => ?_,
    by norm_num [leadTier], by norm_num [leadTier], by norm_num [leadTier],
    by norm_num [leadTier]⟩ <;>
    · simp only [leadTier]
      split_ifs <;> first | rfl | linarith

/-- C8 witness: the universally quantified clauses of `c8_leadTier_spec`
instantiated at concrete day counts. -/
theorem c8_leadTier_spec_witness :
    leadTier (some (1 / 2)) = Tier.elite ∧ leadTier (some 3) = Tier.high ∧
    leadTier (some 20) = Tier.medium ∧ leadTier (some 90) = Tier.low :=
  ⟨c8_leadTier_spec.2.1 (1 / 2) (by norm_num),
   c8_leadTier_spec.2.2.1 3 (by norm_num) (by norm_num),
   c8_leadTier_spec.2.2.2.1 20 (by norm_num) (by norm_num),
   c8_leadTier_spec.2.2.2.2.1 90 (by norm_num)⟩

/-- Every successful run of the try-block returns the success response. -/
theorem handlerBody_ok (now : String) (r : ParsedRequest) (resp : Response)
    (h : handlerBody now r = .ok resp) : resp = successResponse := by
  cases r with
  | malformed m => simp [handlerBody] at h
  | body b =>
    simp only [handlerBody] at h
    cases h1 : resultsTextOf now b with
    | error e => rw [h1] at h; simp at h
    | ok t =>
      rw [h1] at h
      cases h2 : resultsHtmlOf now b with
      | error e => rw [h2] at h; simp at h
      | ok ht =>
        rw [h2] at h
        simp at h
        exact h.symm

/-- A missing `metrics.perSquad` makes the text rendering throw a TypeError. -/
theorem resultsTextOf_perSquad_undef (now : String) (b : ReqBody)
    (h : b.metrics.perSquad = JsonVal.undef) :
    resultsTextOf now b = .error "TypeError: toFixed is not a function" := by
  unfold resultsTextOf
  rw [h]
  rfl

/-- C9: the POST handler always answers with a response — the success response
or the 500 error response — and any error thrown while parsing or formatting
(in particular a malformed metrics object, here a missing `perSquad`) is
reported as the 500 error response instead of propagating. -/
theorem c9_post_fails_closed (now : String) (r : ParsedRequest) :
    (POST now r = successResponse ∨ POST now r = errorResponse) ∧
    (∀ e : String, handlerBody now r = Except.error e → POST now r = errorResponse) ∧
    (∀ b : ReqBody, b.metrics.perSquad = JsonVal.undef →
      POST now (ParsedRequest.body b) = errorResponse) := by
  refine ⟨?_, fun e he => ?_, fun b hb => ?_⟩
  · cases hh : handlerBody now r with
    | error e =>
      right
      unfold POST
      rw [hh]
    | ok resp =>
      left
      unfold POST
      rw [hh, handlerBody_ok now r resp hh]
  · unfold POST
    rw [he]
  · unfold POST
    simp only [handlerBody]
    rw [resultsTextOf_perSquad_undef now b hb]

/-- C9 witness: a syntactically invalid request and a request with a missing
`metrics.perSquad` both receive the 500 error response. -/
theorem c9_post_fails_closed_witness :
    POST "now" (ParsedRequest.malformed "SyntaxError: Unexpected token") = errorResponse ∧
    POST "now" (ParsedRequest.body badBody) = errorResponse :=
  ⟨(c9_post_fails_closed "now" (.malformed "SyntaxError: Unexpected token")).2.1
      "SyntaxError: Unexpected token" rfl,
   (c9_post_fails_closed "now" (.malformed "SyntaxError: Unexpected token")).2.2
      badBody rfl⟩

/-- C10: whenever `metrics.cfr`, `results.leadDays` or `results.mttrHours`
holds the number 0, the report renders that entry as the string N/A in both
the plain-text and the HTML rendering, although the classifier treats 0 as a
defined value (cfr 0 is elite). -/
theorem c10_zero_rendered_na (b : ReqBody) :
    (b.metrics.cfr = JsonVal.num 0 →
      textCfrLine b = "CFR: N/A" ∧
      htmlCfrLine b = "<p>CFR: <strong>N/A</strong></p>") ∧
    (b.results.leadDays = JsonVal.num 0 →
      textLeadLine b = "Lead time (days): N/A" ∧
      htmlLeadLine b = "<p>Lead time (days): <strong>N/A</strong></p>") ∧
    (b.results.mttrHours = JsonVal.num 0 →
      textMttrLine b = "MTTR (hours): N/A" ∧
      htmlMttrLine b = "<p>MTTR (hours): <strong>N/A</strong></p>") ∧
    cfrTier (some 0) = Tier.elite := by
  refine ⟨fun h => ⟨?_, ?_⟩, fun h => ⟨?_, ?_⟩, fun h => ⟨?_, ?_⟩, by norm_num [cfrTier]⟩ <;>
    simp [textCfrLine, htmlCfrLine, textLeadLine, htmlLeadLine, textMttrLine,
      htmlMttrLine, cfrDisplay, orNaDisplay, jsTruthy, h]

/-- C10 witness: the N/A conflation at a concrete request whose cfr, leadDays
and mttrHours are all the number 0. -/
theorem c10_zero_rendered_na_witness :
    textCfrLine zeroBody = "CFR: N/A" ∧
    htmlCfrLine zeroBody = "<p>CFR: <strong>N/A</strong></p>" ∧
    textLeadLine zeroBody = "Lead time (days): N/A" ∧
    htmlLeadLine zeroBody = "<p>Lead time (days): <strong>N/A</strong></p>" ∧
    textMttrLine zeroBody = "MTTR (hours): N/A" ∧
    htmlMttrLine zeroBody = "<p>MTTR (hours): <strong>N/A</strong></p>" :=
  ⟨((c10_zero_rendered_na zeroBody).1 rfl).1,
   ((c10_zero_rendered_na zeroBody).1 rfl).2,
   ((c10_zero_rendered_na zeroBody).2.1 rfl).1,
   ((c10_zero_rendered_na zeroBody).2.1 rfl).2,
   ((c10_zero_rendered_na zeroBody).2.2.1 rfl).1,
   ((c10_zero_rendered_na zeroBody).2.2.1 rfl).2⟩

end Dora
